import Mathlib

/-!
# Canvas / Event bindings of `src/main.c`

A shallow embedding of the QuickJS bindings in `src/main.c`: the `Canvas`
class (construction, teardown, drawing methods, `show`, `pollEvent`) and the
`Event` class (one generic getter).

The two native libraries (SDL3, PlutoVG) and the scripting engine are
external.  They are modelled by an explicit `World`:

* `oracle`  : the outcomes of the fallible external calls still to come, in
  call order (`true` = success; an exhausted tape means success);
* `live`    : the native handles that were created and not yet passed to
  their release function;
* `mem`     : the contents of the `malloc`ed buffers;
* `queue`   : the native event queue read by `SDL_PollEvent`;
* `objs`    : the engine heap (object id = index; `none` = freed object);
* `native`  : the trace of native calls, oldest first;
* `coerced` : the trace of argument coercions (`JS_ToInt32`, ...);
* `reads`   : the trace of reads of `JSCanvas` fields through the payload
  pointer.

Diagnostics printed with `fprintf(stderr, ...)` / `SDL_GetError()` are not
part of the traces.
-/

namespace SdlQuickjs

/-! ## Machine integers -/

/-- Value of a C `int` (32-bit two's complement) after wrap-around. -/
def wrap32 (x : Int) : Int := (x + 2 ^ 31) % 2 ^ 32 - 2 ^ 31

/-- Conversion of a C `int` to `size_t` (64-bit, modular). -/
def toSizeT (x : Int) : Nat := (x % 2 ^ 64).toNat

/-- Conversion of a C `int` to `Uint8` (modular). -/
def toUint8 (x : Int) : Nat := (x % 256).toNat

/-! ## Native handles -/

/-- A C pointer to a native resource: `none` is `NULL`. -/
abbrev Ptr := Option Nat

/-- The kinds of native resources the program creates. -/
inductive Kind
  | window | renderer | surface | pixels | plutovg_surface | plutovg_canvas | texture
  deriving DecidableEq, Repr

/-- A live native resource. -/
structure Handle where
  kind : Kind
  id : Nat
  deriving DecidableEq, Repr

/-- An IEEE double, kept as its bit pattern (the bindings only pass doubles through). -/
structure Double where
  bits : Nat
  deriving DecidableEq, Repr

/-- Modelled from the spec: the declaration of SDL_Event (SDL3/SDL_events.h) is not
under src/.  Only the members read by `js_event_get_attr` are kept: the
discriminator, the keyboard members and the pointer members, the latter
"integer coordinates" as the spec words them. -/
structure SDL_Event where
  type : Nat
  key_key : Nat
  key_mod : Nat
  key_repeat : Bool
  button_button : Nat
  button_x : Int
  button_y : Int
  deriving DecidableEq, Repr

/-- The members of an event record are within the ranges of their C types
(`type` holds an `SDL_EventType` enumerator, at most `0x7FFFFFFF`). -/
def SDL_Event.inRange (e : SDL_Event) : Prop :=
  e.type < 2 ^ 31 ∧ e.key_key < 2 ^ 32 ∧ e.key_mod < 2 ^ 16 ∧ e.button_button < 2 ^ 8 ∧
  (-(2 : Int) ^ 31 ≤ e.button_x ∧ e.button_x < 2 ^ 31) ∧
  (-(2 : Int) ^ 31 ≤ e.button_y ∧ e.button_y < 2 ^ 31)

instance (e : SDL_Event) : Decidable e.inRange := by
  unfold SDL_Event.inRange
  infer_instance

/-! ## The payload structures of `main.c` -/

/-- The structure `SDL_Color`: four `Uint8` channels. -/
structure SDL_Color where
  r : Nat
  g : Nat
  b : Nat
  a : Nat
  deriving DecidableEq, Repr

/-- The structure `Style` of `main.c`. -/
structure Style where
  color : SDL_Color
  deriving DecidableEq, Repr

/-- The structure `JSCanvas` of `main.c`: the payload of a Canvas object. -/
structure JSCanvas where
  width : Int
  height : Int
  fill_style : Style
  window : Ptr
  renderer : Ptr
  surface : Ptr
  pixels : Ptr
  plutovg_surface : Ptr
  plutovg_canvas : Ptr
  deriving DecidableEq, Repr

/-- The fields of `JSCanvas`, for the trace of reads. -/
inductive Field
  | width | height | fill_style | window | renderer | surface | pixels
  | plutovg_surface | plutovg_canvas
  deriving DecidableEq, Repr

/-- The result of `js_mallocz(ctx, sizeof(JSCanvas))`: all bytes zero. -/
def JSCanvas.zeroed : JSCanvas :=
  { width := 0, height := 0, fill_style := ⟨⟨0, 0, 0, 0⟩⟩, window := none, renderer := none,
    surface := none, pixels := none, plutovg_surface := none, plutovg_canvas := none }

/-! ## Traces -/

/-- One call into SDL, PlutoVG or the C allocator, with its arguments and,
for the calls whose result the program uses, its result. -/
inductive NativeCall
  | SDL_CreateWindow (w h : Int) (ret : Ptr)
  | SDL_CreateRenderer (window : Ptr) (ret : Ptr)
  | malloc (size : Nat) (ret : Ptr)
  | SDL_memset (dst : Ptr) (c : Nat) (len : Nat)
  | SDL_CreateSurfaceFrom (w h : Int) (pixels : Ptr) (pitch : Int) (ret : Ptr)
  | free (p : Ptr)
  | plutovg_surface_create_for_data (data : Ptr) (w h stride : Int) (ret : Ptr)
  | plutovg_canvas_create (surface : Ptr) (ret : Ptr)
  | SDL_SetRenderDrawBlendMode (renderer : Ptr) (ok : Bool)
  | SDL_DestroyRenderer (p : Ptr)
  | SDL_DestroyWindow (p : Ptr)
  | SDL_DestroySurface (p : Ptr)
  | plutovg_surface_destroy (p : Ptr)
  | plutovg_canvas_destroy (p : Ptr)
  | plutovg_canvas_arc (canvas : Ptr) (x y radius a0 a1 : Double) (ccw : Bool)
  | plutovg_canvas_new_path (canvas : Ptr)
  | SDL_SetRenderDrawColor (renderer : Ptr) (r g b a : Nat) (ok : Bool)
  | SDL_RenderClear (renderer : Ptr) (ok : Bool)
  | plutovg_surface_clear (surface : Ptr) (r g b a : Nat)
  | SDL_RenderFillRect (renderer : Ptr) (x y w h : Double) (ok : Bool)
  | plutovg_canvas_set_rgba (canvas : Ptr) (r g b a : Nat)
  | plutovg_canvas_fill (canvas : Ptr)
  | plutovg_canvas_fill_rect (canvas : Ptr) (x y w h : Double)
  | plutovg_canvas_set_opacity (canvas : Ptr) (alpha : Double)
  | SDL_PollEvent (ret : Option SDL_Event)
  | SDL_CreateTextureFromSurface (renderer surface : Ptr) (ret : Ptr)
  | SDL_RenderTexture (renderer texture : Ptr) (w h : Int) (ok : Bool)
  | SDL_DestroyTexture (texture : Ptr)
  | SDL_RenderPresent (renderer : Ptr) (ok : Bool)
  deriving DecidableEq, Repr

/-- One coercion of the argument `argv[i]` by the engine. -/
inductive Coercion
  | JS_ToInt32 (i : Nat)
  | JS_ToFloat64 (i : Nat)
  | JS_ToBool (i : Nat)
  deriving DecidableEq, Repr

/-! ## The engine side -/

/-- An engine object, by class: a Canvas-class or Event-class object with its
payload pointer (`none` while `JS_SetOpaque` was not called), or an object of
any other class. -/
inductive JSObject
  | canvas (s : Option JSCanvas)
  | event (e : Option SDL_Event)
  | other
  deriving DecidableEq, Repr

/-- The values the bindings return to the engine. `keyName k` stands for the
string `SDL_GetKeyName(k)`. -/
inductive JSValue
  | undefined
  | exception
  | number (v : Int)
  | bool (b : Bool)
  | keyName (key : Nat)
  | object (id : Nat)
  deriving DecidableEq, Repr

/-- An argument as the coercions of the engine see it: what `JS_ToInt32`,
`JS_ToFloat64` and `JS_ToBool` store for it, `none` when the coercion throws. -/
structure JSValueConst where
  toInt32 : Option Int
  toFloat64 : Option Double
  toBool : Option Bool
  deriving DecidableEq, Repr

/-- The state of the process and of its environment. -/
structure World where
  oracle : List Bool
  next : Nat
  live : List Handle
  mem : List (Nat × List Nat)
  queue : List SDL_Event
  objs : List (Option JSObject)
  native : List NativeCall
  coerced : List Coercion
  reads : List Field
  deriving DecidableEq, Repr

/-- Outcome of running a piece of the program: it returns `a` in world `w`, or
the process dies in world `w` (failed `assert`, dereference of `NULL`). -/
inductive Run (α : Type)
  | done (a : α) (w : World)
  | crash (w : World)
  deriving DecidableEq, Repr

/-- The outcome at the head of a tape; an exhausted tape means success. -/
def nextOutcome : List Bool → Bool
  | [] => true
  | b :: _ => b

namespace World

/-- The world at process start, with a given tape of outcomes and event queue. -/
def start (oracle : List Bool) (queue : List SDL_Event) : World :=
  { oracle := oracle, next := 0, live := [], mem := [], queue := queue, objs := [],
    native := [], coerced := [], reads := [] }

/-- Take the outcome of the next fallible external call from the tape. -/
def draw (w : World) : Bool × World :=
  (nextOutcome w.oracle, { w with oracle := w.oracle.tail })

def call (w : World) (c : NativeCall) : World := { w with native := w.native ++ [c] }

def coerce (w : World) (c : Coercion) : World := { w with coerced := w.coerced ++ [c] }

def read (w : World) (f : Field) : World := { w with reads := w.reads ++ [f] }

/-- A fallible creation of a native resource of kind `k`. -/
def create (w : World) (k : Kind) : Ptr × World :=
  if nextOutcome w.oracle then
    (some w.next,
      { w with oracle := w.oracle.tail, next := w.next + 1, live := w.live ++ [⟨k, w.next⟩] })
  else (none, { w with oracle := w.oracle.tail })

/-- Release of a native resource; releasing `NULL` does nothing. -/
def release (w : World) (k : Kind) (p : Ptr) : World :=
  match p with
  | none => w
  | some i => { w with live := w.live.erase ⟨k, i⟩ }

/-- Number of live handles of a kind. -/
def liveCount (w : World) (k : Kind) : Nat := w.live.countP (fun h => h.kind = k)

end World

/-! ## The native calls used by the bindings -/

def SDL_CreateWindow (width height : Int) (w : World) : Ptr × World :=
  let r := w.create .window
  (r.1, r.2.call (.SDL_CreateWindow width height r.1))

def SDL_CreateRenderer (window : Ptr) (w : World) : Ptr × World :=
  let r := w.create .renderer
  (r.1, r.2.call (.SDL_CreateRenderer window r.1))

/-- The allocator: a fresh buffer of `size` bytes (its indeterminate contents
are taken as `0x00`), or `NULL`. -/
def malloc (size : Nat) (w : World) : Ptr × World :=
  let r := w.create .pixels
  match r.1 with
  | some p =>
    (some p, ({ r.2 with mem := (p, List.replicate size 0) :: r.2.mem }).call (.malloc size (some p)))
  | none => (none, r.2.call (.malloc size none))

/-- The bytes of `buf` after its first `len` bytes are set to `c`. -/
def setBytes (buf : List Nat) (c len : Nat) : List Nat :=
  List.replicate (min len buf.length) c ++ buf.drop len

def SDL_memset (dst : Ptr) (c len : Nat) (w : World) : World :=
  let w := w.call (.SDL_memset dst c len)
  match dst with
  | none => w
  | some p =>
    { w with mem := w.mem.map (fun e => if e.1 = p then (e.1, setBytes e.2 c len) else e) }

def free (p : Ptr) (w : World) : World :=
  let w := (w.release .pixels p).call (.free p)
  match p with
  | none => w
  | some i => { w with mem := w.mem.filter (fun e => e.1 ≠ i) }

def SDL_CreateSurfaceFrom (width height : Int) (pixels : Ptr) (pitch : Int) (w : World) :
    Ptr × World :=
  let r := w.create .surface
  (r.1, r.2.call (.SDL_CreateSurfaceFrom width height pixels pitch r.1))

def plutovg_surface_create_for_data (data : Ptr) (width height stride : Int) (w : World) :
    Ptr × World :=
  let r := w.create .plutovg_surface
  (r.1, r.2.call (.plutovg_surface_create_for_data data width height stride r.1))

def plutovg_canvas_create (surface : Ptr) (w : World) : Ptr × World :=
  let r := w.create .plutovg_canvas
  (r.1, r.2.call (.plutovg_canvas_create surface r.1))

def SDL_SetRenderDrawBlendMode (renderer : Ptr) (w : World) : Bool × World :=
  let r := w.draw
  (r.1, r.2.call (.SDL_SetRenderDrawBlendMode renderer r.1))

def SDL_DestroyRenderer (p : Ptr) (w : World) : World :=
  (w.release .renderer p).call (.SDL_DestroyRenderer p)

def SDL_DestroyWindow (p : Ptr) (w : World) : World :=
  (w.release .window p).call (.SDL_DestroyWindow p)

def SDL_DestroySurface (p : Ptr) (w : World) : World :=
  (w.release .surface p).call (.SDL_DestroySurface p)

def plutovg_surface_destroy (p : Ptr) (w : World) : World :=
  (w.release .plutovg_surface p).call (.plutovg_surface_destroy p)

def plutovg_canvas_destroy (p : Ptr) (w : World) : World :=
  (w.release .plutovg_canvas p).call (.plutovg_canvas_destroy p)

def SDL_SetRenderDrawColor (renderer : Ptr) (r g b a : Nat) (w : World) : Bool × World :=
  let d := w.draw
  (d.1, d.2.call (.SDL_SetRenderDrawColor renderer r g b a d.1))

def SDL_RenderClear (renderer : Ptr) (w : World) : Bool × World :=
  let d := w.draw
  (d.1, d.2.call (.SDL_RenderClear renderer d.1))

def SDL_RenderFillRect (renderer : Ptr) (x y width height : Double) (w : World) : Bool × World :=
  let d := w.draw
  (d.1, d.2.call (.SDL_RenderFillRect renderer x y width height d.1))

/-- The next event of the native queue, if there is one. -/
def SDL_PollEvent (w : World) : Option SDL_Event × World :=
  match w.queue with
  | [] => (none, w.call (.SDL_PollEvent none))
  | e :: rest => (some e, ({ w with queue := rest }).call (.SDL_PollEvent (some e)))

def SDL_CreateTextureFromSurface (renderer surface : Ptr) (w : World) : Ptr × World :=
  let r := w.create .texture
  (r.1, r.2.call (.SDL_CreateTextureFromSurface renderer surface r.1))

def SDL_RenderTexture (renderer texture : Ptr) (width height : Int) (w : World) : Bool × World :=
  let d := w.draw
  (d.1, d.2.call (.SDL_RenderTexture renderer texture width height d.1))

def SDL_DestroyTexture (texture : Ptr) (w : World) : World :=
  (w.release .texture texture).call (.SDL_DestroyTexture texture)

def SDL_RenderPresent (renderer : Ptr) (w : World) : Bool × World :=
  let d := w.draw
  (d.1, d.2.call (.SDL_RenderPresent renderer d.1))

/-! ## Engine primitives -/

/-- The object behind a value, when the value is a live object. -/
def World.obj (w : World) (v : JSValue) : Option JSObject :=
  match v with
  | .object id => (w.objs.getD id none)
  | _ => none

/-- Allocation of a new engine object (`JS_NewObjectProtoClass`,
`JS_NewObjectClass`): the new object, or the exception value. -/
def JS_NewObject (o : JSObject) (w : World) : JSValue × World :=
  let d := w.draw
  if d.1 then (.object d.2.objs.length, { d.2 with objs := d.2.objs ++ [some o] })
  else (.exception, d.2)

/-- The engine call `JS_GetOpaque(val, js_canvas_class_id)`: the payload pointer of a
Canvas-class object, `NULL` for anything else. -/
def JS_GetOpaque_canvas (w : World) (val : JSValue) : Option JSCanvas :=
  match w.obj val with
  | some (.canvas s) => s
  | _ => none

/-- The engine call `JS_GetOpaque2(ctx, val, js_canvas_class_id)`: as `JS_GetOpaque`, and a
pending TypeError when the class does not match. -/
def JS_GetOpaque2_canvas (w : World) (val : JSValue) : Option JSCanvas :=
  JS_GetOpaque_canvas w val

def JS_GetOpaque2_event (w : World) (val : JSValue) : Option SDL_Event :=
  match w.obj val with
  | some (.event e) => e
  | _ => none

/-- The engine call `JS_SetOpaque(obj, p)` on an object value. -/
def JS_SetOpaque (v : JSValue) (o : JSObject) (w : World) : World :=
  match v with
  | .object id => { w with objs := w.objs.set id (some o) }
  | _ => w

/-- The engine call `JS_NewInt32(ctx, v)`, `v` already an `int32_t`. -/
def JS_NewInt32 (v : Int) : JSValue := .number v

/-- The engine call `JS_NewInt64(ctx, v)`, `v` already an `int64_t`. -/
def JS_NewInt64 (v : Int) : JSValue := .number v

/-- A store through the payload pointer of the Canvas object `v`. -/
def storeCanvas (v : JSValue) (s : JSCanvas) (w : World) : World :=
  JS_SetOpaque v (.canvas (some s)) w

def JS_ToInt32 (argv : Nat → JSValueConst) (i : Nat) (w : World) : Option Int × World :=
  ((argv i).toInt32, w.coerce (.JS_ToInt32 i))

def JS_ToFloat64 (argv : Nat → JSValueConst) (i : Nat) (w : World) : Option Double × World :=
  ((argv i).toFloat64, w.coerce (.JS_ToFloat64 i))

/-- The engine call `JS_ToBool` returns -1 on exception, which a C `bool` takes as true. -/
def JS_ToBool (argv : Nat → JSValueConst) (i : Nat) (w : World) : Bool × World :=
  (((argv i).toBool).getD true, w.coerce (.JS_ToBool i))

/-! ## Canvas: teardown and construction -/

/-- The function `canvas_finalizer(JSCanvas *s)`.  The pointer may be `NULL`, in which case the first
field access faults. -/
def canvas_finalizer (s : Option JSCanvas) (w : World) : Run Unit :=
  match s with
  | none => .crash w
  | some s =>
    let w := w.read .renderer
    let w := if s.renderer ≠ none then SDL_DestroyRenderer s.renderer (w.read .renderer) else w
    let w := w.read .window
    let w := if s.window ≠ none then SDL_DestroyWindow s.window (w.read .window) else w
    let w := w.read .surface
    let w := if s.surface ≠ none then SDL_DestroySurface s.surface (w.read .surface) else w
    let w := w.read .pixels
    let w := if s.pixels ≠ none then free s.pixels (w.read .pixels) else w
    let w := w.read .plutovg_surface
    let w := if s.plutovg_surface ≠ none then
      plutovg_surface_destroy s.plutovg_surface (w.read .plutovg_surface) else w
    let w := w.read .plutovg_canvas
    let w := if s.plutovg_canvas ≠ none then
      plutovg_canvas_destroy s.plutovg_canvas (w.read .plutovg_canvas) else w
    .done () w

/-- The class finalizer `js_canvas_finalizer(rt, val)`: `canvas_finalizer` on the payload pointer,
then `js_free_rt` of it. -/
def js_canvas_finalizer (val : JSValue) (w : World) : Run Unit :=
  let s := JS_GetOpaque_canvas w val
  canvas_finalizer s w

/-- The class finalizer `js_event_finalizer(rt, val)`: `js_free_rt` of the payload, which accepts `NULL`. -/
def js_event_finalizer (_val : JSValue) (w : World) : Run Unit :=
  .done () w

/-- The engine call `JS_FreeValue(ctx, v)` on the only reference to `v`: an object is finalized by
its class finalizer and freed; other values need nothing. -/
def JS_FreeValue (v : JSValue) (w : World) : Run Unit :=
  match v with
  | .object id =>
    match w.objs.getD id none with
    | none => .done () w
    | some o =>
      let r := match o with
        | .canvas _ => js_canvas_finalizer v w
        | .event _ => js_event_finalizer v w
        | .other => .done () w
      match r with
      | .done _ w => .done () { w with objs := w.objs.set id none }
      | .crash w => .crash w
  | _ => .done () w

/-- The function `canvas_initializer(JSCanvas *s)`: the return code and the structure as it was left. -/
def canvas_initializer (s : JSCanvas) (w : World) : Run (Int × JSCanvas) :=
  let w := (w.read .width).read .height
  let r := SDL_CreateWindow s.width s.height w
  let s := { s with window := r.1 }
  let w := r.2.read .window
  if s.window = none then .done (1, s) w else
  let w := w.read .window
  let r := SDL_CreateRenderer s.window w
  let s := { s with renderer := r.1 }
  let w := r.2.read .renderer
  if s.renderer = none then .done (1, s) w else
  let w := (w.read .width).read .height
  let width := s.width
  let height := s.height
  let pitch := wrap32 (width * 4)
  let r := malloc (toSizeT (wrap32 (height * pitch))) w
  let pixels := r.1
  -- assert(pixels != NULL)
  if pixels = none then .crash r.2 else
  let w := r.2.read .height
  let w := SDL_memset pixels 0xFF (toSizeT (wrap32 (s.height * pitch))) w
  let r := SDL_CreateSurfaceFrom width height pixels pitch w
  let surface := r.1
  if surface = none then .done (1, s) (free pixels r.2) else
  let s := { s with pixels := pixels, surface := surface }
  let r := plutovg_surface_create_for_data pixels width height pitch r.2
  let s := { s with plutovg_surface := r.1 }
  let w := r.2.read .plutovg_surface
  if s.plutovg_surface = none then .done (1, s) w else
  let w := w.read .plutovg_surface
  let r := plutovg_canvas_create s.plutovg_surface w
  let s := { s with plutovg_canvas := r.1 }
  let w := r.2.read .plutovg_canvas
  if s.plutovg_canvas = none then .done (1, s) w else
  let w := w.read .renderer
  let r := SDL_SetRenderDrawBlendMode s.renderer w
  if !r.1 then .done (1, s) r.2 else
  .done (0, s) r.2

/-- The label `fail:` of `js_canvas_ctor`: `js_free(ctx, s); JS_FreeValue(ctx, obj); return JS_EXCEPTION`. -/
def js_canvas_ctor_fail (obj : JSValue) (w : World) : Run JSValue :=
  match JS_FreeValue obj w with
  | .done _ w => .done .exception w
  | .crash w => .crash w

/-- The constructor `js_canvas_ctor(ctx, new_target, argc, argv)`. -/
def js_canvas_ctor (_argc : Int) (argv : Nat → JSValueConst) (w : World) : Run JSValue :=
  -- s = js_mallocz(ctx, sizeof( *s))
  let d := w.draw
  if !d.1 then .done .exception d.2 else
  let s := JSCanvas.zeroed
  let obj := JSValue.undefined
  let c := JS_ToInt32 argv 0 d.2
  match c.1 with
  | none => js_canvas_ctor_fail obj c.2
  | some width =>
  let s := { s with width := width }
  let c := JS_ToInt32 argv 1 c.2
  match c.1 with
  | none => js_canvas_ctor_fail obj c.2
  | some height =>
  let s := { s with height := height }
  -- proto = JS_GetPropertyStr(ctx, new_target, "prototype")
  let d := c.2.draw
  if !d.1 then js_canvas_ctor_fail obj d.2 else
  let o := JS_NewObject (.canvas none) d.2
  let obj := o.1
  if obj = .exception then js_canvas_ctor_fail obj o.2 else
  match canvas_initializer s o.2 with
  | .crash w => .crash w
  | .done r w =>
    if r.1 ≠ 0 then js_canvas_ctor_fail obj w else
    .done obj (JS_SetOpaque obj (.canvas (some r.2)) w)

/-! ## Canvas: methods -/

/-- The method `js_canvas_arc`. -/
def js_canvas_arc (this_val : JSValue) (argc : Int) (argv : Nat → JSValueConst) (w : World) :
    Run JSValue :=
  if argc ≠ 5 ∧ argc ≠ 6 then .done .exception w else
  match JS_GetOpaque2_canvas w this_val with
  | none => .done .exception w
  | some s =>
    let cc := if argc = 6 then JS_ToBool argv 5 w else (false, w)
    let counterclockwise := cc.1
    let c := JS_ToFloat64 argv 0 cc.2
    match c.1 with
    | none => .done .exception c.2
    | some x =>
    let c := JS_ToFloat64 argv 1 c.2
    match c.1 with
    | none => .done .exception c.2
    | some y =>
    let c := JS_ToFloat64 argv 2 c.2
    match c.1 with
    | none => .done .exception c.2
    | some radius =>
    let c := JS_ToFloat64 argv 3 c.2
    match c.1 with
    | none => .done .exception c.2
    | some start_angle =>
    let c := JS_ToFloat64 argv 4 c.2
    match c.1 with
    | none => .done .exception c.2
    | some end_angle =>
    let w := c.2.read .plutovg_canvas
    .done .undefined
      (w.call (.plutovg_canvas_arc s.plutovg_canvas x y radius start_angle end_angle
        counterclockwise))

/-- The method `js_canvas_begin_path`. -/
def js_canvas_begin_path (this_val : JSValue) (argc : Int) (_argv : Nat → JSValueConst)
    (w : World) : Run JSValue :=
  if argc ≠ 0 then .done .exception w else
  match JS_GetOpaque2_canvas w this_val with
  | none => .done .exception w
  | some s =>
    let w := w.read .plutovg_canvas
    .done .undefined (w.call (.plutovg_canvas_new_path s.plutovg_canvas))

/-- The method `js_canvas_clear`. -/
def js_canvas_clear (this_val : JSValue) (argc : Int) (_argv : Nat → JSValueConst)
    (w : World) : Run JSValue :=
  if argc ≠ 0 then .done .exception w else
  match JS_GetOpaque2_canvas w this_val with
  | none => .done .exception w
  | some s =>
    let w := w.read .renderer
    let renderer := s.renderer
    let d := SDL_SetRenderDrawColor renderer 0 0 0 0 w
    if !d.1 then .done .exception d.2 else
    let d := SDL_RenderClear renderer d.2
    if !d.1 then .done .exception d.2 else
    let w := d.2.read .plutovg_surface
    .done .undefined (w.call (.plutovg_surface_clear s.plutovg_surface 0 0 0 0))

/-- The method `js_canvas_clear_rect`. -/
def js_canvas_clear_rect (this_val : JSValue) (argc : Int) (argv : Nat → JSValueConst)
    (w : World) : Run JSValue :=
  if argc ≠ 4 then .done .exception w else
  match JS_GetOpaque2_canvas w this_val with
  | none => .done .exception w
  | some s =>
    let c := JS_ToFloat64 argv 0 w
    match c.1 with
    | none => .done .exception c.2
    | some x =>
    let c := JS_ToFloat64 argv 1 c.2
    match c.1 with
    | none => .done .exception c.2
    | some y =>
    let c := JS_ToFloat64 argv 2 c.2
    match c.1 with
    | none => .done .exception c.2
    | some width =>
    let c := JS_ToFloat64 argv 3 c.2
    match c.1 with
    | none => .done .exception c.2
    | some height =>
    let w := c.2.read .renderer
    let renderer := s.renderer
    let d := SDL_SetRenderDrawColor renderer 0 0 0 0 w
    if !d.1 then .done .exception d.2 else
    let d := SDL_RenderFillRect renderer x y width height d.2
    if !d.1 then .done .exception d.2 else
    .done .undefined d.2

/-- The method `js_canvas_fill`.  The channels passed to `plutovg_canvas_set_rgba` are recorded
before their division by `255.0`. -/
def js_canvas_fill (this_val : JSValue) (argc : Int) (_argv : Nat → JSValueConst)
    (w : World) : Run JSValue :=
  if argc ≠ 0 then .done .exception w else
  match JS_GetOpaque2_canvas w this_val with
  | none => .done .exception w
  | some s =>
    let w := w.read .fill_style
    let color := s.fill_style.color
    let w := w.read .plutovg_canvas
    let w := w.call (.plutovg_canvas_set_rgba s.plutovg_canvas color.r color.g color.b color.a)
    let w := w.read .plutovg_canvas
    .done .undefined (w.call (.plutovg_canvas_fill s.plutovg_canvas))

/-- The method `js_canvas_fill_rect`. -/
def js_canvas_fill_rect (this_val : JSValue) (argc : Int) (argv : Nat → JSValueConst)
    (w : World) : Run JSValue :=
  if argc ≠ 4 then .done .exception w else
  match JS_GetOpaque2_canvas w this_val with
  | none => .done .exception w
  | some s =>
    let c := JS_ToFloat64 argv 0 w
    match c.1 with
    | none => .done .exception c.2
    | some x =>
    let c := JS_ToFloat64 argv 1 c.2
    match c.1 with
    | none => .done .exception c.2
    | some y =>
    let c := JS_ToFloat64 argv 2 c.2
    match c.1 with
    | none => .done .exception c.2
    | some width =>
    let c := JS_ToFloat64 argv 3 c.2
    match c.1 with
    | none => .done .exception c.2
    | some height =>
    let w := c.2.read .plutovg_canvas
    .done .undefined (w.call (.plutovg_canvas_fill_rect s.plutovg_canvas x y width height))

/-- The getter `js_canvas_get_wh(ctx, this_val, magic)`. -/
def js_canvas_get_wh (this_val : JSValue) (magic : Int) (w : World) : Run JSValue :=
  match JS_GetOpaque2_canvas w this_val with
  | none => .done .exception w
  | some s =>
    if magic = 0 then .done (JS_NewInt32 s.width) (w.read .width)
    else .done (JS_NewInt32 s.height) (w.read .height)

/-- The method `js_canvas_poll_event`. -/
def js_canvas_poll_event (this_val : JSValue) (_argc : Int) (_argv : Nat → JSValueConst)
    (w : World) : Run JSValue :=
  match JS_GetOpaque2_canvas w this_val with
  | none => .done .exception w
  | some _ =>
    let p := SDL_PollEvent w
    match p.1 with
    | some event =>
      let o := JS_NewObject (.event none) p.2
      let event_obj := o.1
      if event_obj = .exception then .done .exception o.2 else
      -- event_data = js_mallocz(ctx, sizeof(SDL_Event))
      let d := o.2.draw
      if !d.1 then
        match JS_FreeValue event_obj d.2 with
        | .done _ w => .done .exception w
        | .crash w => .crash w
      else
      -- *event_data = event
      let event_data := event
      .done event_obj (JS_SetOpaque event_obj (.event (some event_data)) d.2)
    | none => .done .undefined p.2

/-- The method `js_canvas_quit`. -/
def js_canvas_quit (_this_val : JSValue) (_argc : Int) (_argv : Nat → JSValueConst)
    (w : World) : Run JSValue :=
  .done .undefined w

/-- The method `js_canvas_set_fill_color`. -/
def js_canvas_set_fill_color (this_val : JSValue) (argc : Int) (argv : Nat → JSValueConst)
    (w : World) : Run JSValue :=
  if argc ≠ 3 ∧ argc ≠ 4 then .done .exception w else
  match JS_GetOpaque2_canvas w this_val with
  | none => .done .exception w
  | some s =>
    let c := JS_ToInt32 argv 0 w
    match c.1 with
    | none => .done .exception c.2
    | some r =>
    let c := JS_ToInt32 argv 1 c.2
    match c.1 with
    | none => .done .exception c.2
    | some g =>
    let c := JS_ToInt32 argv 2 c.2
    match c.1 with
    | none => .done .exception c.2
    | some b =>
    let c := if argc = 4 then JS_ToInt32 argv 3 c.2 else (some 255, c.2)
    match c.1 with
    | none => .done .exception c.2
    | some a =>
    let color : SDL_Color := { r := toUint8 r, g := toUint8 g, b := toUint8 b, a := toUint8 a }
    let s := { s with fill_style := { color := color } }
    -- s->fill_style.color = color
    let w := storeCanvas this_val s c.2
    let w := w.read .plutovg_canvas
    .done .undefined
      (w.call (.plutovg_canvas_set_rgba s.plutovg_canvas color.r color.g color.b color.a))

/-- The method `js_canvas_set_global_alpha`. -/
def js_canvas_set_global_alpha (this_val : JSValue) (argc : Int) (argv : Nat → JSValueConst)
    (w : World) : Run JSValue :=
  if argc ≠ 1 then .done .exception w else
  match JS_GetOpaque2_canvas w this_val with
  | none => .done .exception w
  | some s =>
    let c := JS_ToFloat64 argv 0 w
    match c.1 with
    | none => .done .exception c.2
    | some alpha =>
    let w := c.2.read .plutovg_canvas
    .done .undefined (w.call (.plutovg_canvas_set_opacity s.plutovg_canvas alpha))

/-- The method `js_canvas_show`. -/
def js_canvas_show (this_val : JSValue) (_argc : Int) (_argv : Nat → JSValueConst)
    (w : World) : Run JSValue :=
  match JS_GetOpaque2_canvas w this_val with
  | none => .done .exception w
  | some s =>
    let w := (w.read .renderer).read .surface
    let t := SDL_CreateTextureFromSurface s.renderer s.surface w
    let texture := t.1
    -- srcrect, dstrect = (0, 0, s->width, s->height)
    let w := (((t.2.read .width).read .height).read .width).read .height
    let w := w.read .renderer
    let renderer := s.renderer
    let d := SDL_RenderTexture renderer texture s.width s.height w
    if !d.1 then .done .exception (SDL_DestroyTexture texture d.2) else
    let w := SDL_DestroyTexture texture d.2
    let d := SDL_RenderPresent renderer w
    if !d.1 then .done .exception d.2 else
    .done .undefined d.2

/-! ## Event: the getter -/

/-- The modifier mask `SDL_KMOD_SHIFT` of SDL3/SDL_keycode.h (left or right Shift). -/
def SDL_KMOD_SHIFT : Nat := 0x0003

/-- The modifier mask `SDL_KMOD_CTRL` of SDL3/SDL_keycode.h (left or right Ctrl). -/
def SDL_KMOD_CTRL : Nat := 0x00C0

/-- The modifier mask `SDL_KMOD_ALT` of SDL3/SDL_keycode.h (left or right Alt). -/
def SDL_KMOD_ALT : Nat := 0x0300

/-- The modifier mask `SDL_KMOD_GUI` of SDL3/SDL_keycode.h (left or right GUI key). -/
def SDL_KMOD_GUI : Nat := 0x0C00

/-- The getter `js_event_get_attr(ctx, this_val, magic)`. The unsigned members are converted to the
signed parameter type of the engine constructor. -/
def js_event_get_attr (this_val : JSValue) (magic : Int) (w : World) : JSValue :=
  match JS_GetOpaque2_event w this_val with
  | none => .exception
  | some s =>
    match magic with
    | 0 => JS_NewInt32 (wrap32 s.type)
    | 1 => JS_NewInt64 s.key_key
    | 2 => .bool ((s.key_mod &&& SDL_KMOD_ALT) != 0)
    | 3 => .bool ((s.key_mod &&& SDL_KMOD_CTRL) != 0)
    | 4 => .bool ((s.key_mod &&& SDL_KMOD_SHIFT) != 0)
    | 5 => .bool ((s.key_mod &&& SDL_KMOD_GUI) != 0)
    | 6 => .bool s.key_repeat
    | 7 => .keyName s.key_key
    | 10 => JS_NewInt32 s.button_button
    | 11 => JS_NewInt32 (wrap32 s.button_x)
    | 12 => JS_NewInt32 (wrap32 s.button_y)
    | _ => .undefined

/-! ## Dispatch -/

/-- The methods installed on the Canvas prototype (`js_canvas_proto_funcs`). -/
inductive Method
  | arc | beginPath | clear | clearRect | fill | fillRect | pollEvent | quit
  | setFillColor | setGlobalAlpha | show
  deriving DecidableEq, Repr

/-- The C function bound to each method name in `js_canvas_proto_funcs`. -/
def Method.run : Method → JSValue → Int → (Nat → JSValueConst) → World → Run JSValue
  | .arc => js_canvas_arc
  | .beginPath => js_canvas_begin_path
  | .clear => js_canvas_clear
  | .clearRect => js_canvas_clear_rect
  | .fill => js_canvas_fill
  | .fillRect => js_canvas_fill_rect
  | .pollEvent => js_canvas_poll_event
  | .quit => js_canvas_quit
  | .setFillColor => js_canvas_set_fill_color
  | .setGlobalAlpha => js_canvas_set_global_alpha
  | .show => js_canvas_show

/-- One method call of a script: the method, the argument count and the arguments. -/
structure Call where
  method : Method
  argc : Int
  argv : Nat → JSValueConst

/-- A script that calls methods on `this_val` one after the other; it stops when the process dies. -/
def runCalls (this_val : JSValue) : List Call → World → Run Unit
  | [], w => .done () w
  | c :: rest, w =>
    match c.method.run this_val c.argc c.argv w with
    | .done _ w => runCalls this_val rest w
    | .crash w => .crash w

/-! ## Observations on outcomes -/

/-- The world in which a run ended. -/
def Run.world {α : Type} : Run α → World
  | .done _ w => w
  | .crash w => w

/-- The value a run returned, `none` when the process died. -/
def Run.value? {α : Type} : Run α → Option α
  | .done a _ => some a
  | .crash _ => none

/-- Arguments that are all the same int32 number, except the first. -/
def intArgs (a0 rest : Int) : Nat → JSValueConst :=
  fun i => if i = 0 then ⟨some a0, none, none⟩ else ⟨some rest, none, none⟩

/-- Every outcome still on the tape is a success. -/
def AllOk (l : List Bool) : Prop := ∀ b ∈ l, b = true

instance (l : List Bool) : Decidable (AllOk l) := by
  unfold AllOk
  infer_instance

/-- The world right after `new Canvas(2, 3)` succeeded at process start; the canvas is object 0. -/
def liveCanvasWorld : World :=
  (js_canvas_ctor 2 (intArgs 2 3) (World.start [] [])).world

/-- The argument counts each method accepts, as the specification lists them. -/
def spec_accepted_argc : Method → List Int
  | .arc => [5, 6]
  | .beginPath => [0]
  | .clear => [0]
  | .clearRect => [4]
  | .fill => [0]
  | .fillRect => [4]
  | .pollEvent => [0]
  | .quit => [0]
  | .setFillColor => [3, 4]
  | .setGlobalAlpha => [1]
  | .show => [0]

/-- The part of an object that no method may change: everything but the fill style of a
canvas payload. -/
def JSObject.core : JSObject → JSObject
  | .canvas (some s) => .canvas (some { s with fill_style := ⟨⟨0, 0, 0, 0⟩⟩ })
  | o => o

/-- The objects of `w` are still there in `w1`, changed at most in the fill style. -/
def Preserves (w w1 : World) : Prop :=
  ∀ (id : Nat) (o : JSObject), w.objs[id]? = some (some o) →
    ∃ o1, w1.objs[id]? = some (some o1) ∧ o1.core = o.core

/-- Some bit of the mask `m` is set in `x`. -/
def hasAnyBit (x m : Nat) : Prop := ∃ i, m.testBit i = true ∧ x.testBit i = true

/-- A key-down event for the key `a` with the left Alt key held. -/
def keyDownAltA : SDL_Event :=
  { type := 0x300, key_key := 97, key_mod := 0x0100, key_repeat := false,
    button_button := 0, button_x := 0, button_y := 0 }

/-- Four int32 arguments. -/
def rgbaArgs (r g b a : Int) : Nat → JSValueConst :=
  fun i => match i with
    | 0 => ⟨some r, none, none⟩
    | 1 => ⟨some g, none, none⟩
    | 2 => ⟨some b, none, none⟩
    | _ => ⟨some a, none, none⟩

/-- A short script: set a colour, fill, show, poll. -/
def sampleCalls : List Call :=
  [⟨.setFillColor, 4, rgbaArgs 255 0 0 255⟩, ⟨.fill, 0, intArgs 0 0⟩, ⟨.show, 0, intArgs 0 0⟩,
   ⟨.pollEvent, 0, intArgs 0 0⟩]

/-- A property of the result of a run that returned; nothing is asked of a run that died. -/
def Run.Holds {α : Type} (P : α → World → Prop) : Run α → Prop
  | .done a w => P a w
  | .crash _ => True

/-! ## Basic facts -/

theorem Run.eq_done_of_value {α : Type} {r : Run α} {a : α} (h : r.value? = some a) :
    r = .done a r.world := by
  cases r with
  | done b w => simp [Run.value?] at h; subst h; rfl
  | crash w => simp [Run.value?] at h

theorem AllOk.headD {l : List Bool} (h : AllOk l) : nextOutcome l = true := by
  cases l with
  | nil => rfl
  | cons b t => exact h b (List.mem_cons_self _ _)

theorem AllOk.tail {l : List Bool} (h : AllOk l) : AllOk l.tail := by
  intro b hb
  exact h b (List.mem_of_mem_tail hb)

theorem wrap32_of_range {x : Int} (h0 : -(2 : Int) ^ 31 ≤ x) (h1 : x < 2 ^ 31) : wrap32 x = x := by
  unfold wrap32
  norm_num at h0 h1 ⊢
  omega

theorem setBytes_replicate (n c : Nat) : setBytes (List.replicate n 0) c n = List.replicate n c := by
  simp [setBytes]

/-! ## C1: construction failure -/

/-- C1 (defect of the code): with width 100, height 50 and `SDL_CreateRenderer` failing after
`SDL_CreateWindow` succeeded, `canvas_initializer` returns 1 with the window still live, and
`js_canvas_ctor`, started with no live handle, never returns the exception value: its failure
path releases no handle and dies in the class finalizer, the window still live. -/
theorem js_canvas_ctor_failure_keeps_window :
    ((canvas_initializer { JSCanvas.zeroed with width := 100, height := 50 }
        (World.start [true, false] [])).value?.map Prod.fst = some 1
      ∧ (canvas_initializer { JSCanvas.zeroed with width := 100, height := 50 }
        (World.start [true, false] [])).world.live = [⟨.window, 0⟩])
    ∧ (World.start [true, true, true, true, false] []).live = []
    ∧ (js_canvas_ctor 2 (intArgs 100 50) (World.start [true, true, true, true, false] [])).value?
        = none
    ∧ (js_canvas_ctor 2 (intArgs 100 50) (World.start [true, true, true, true, false] [])).world.live
        = [⟨.window, 0⟩]
    ∧ (js_canvas_ctor 2 (intArgs 100 50) (World.start [true, true, true, true, false] [])).world.native
        = [.SDL_CreateWindow 100 50 (some 0), .SDL_CreateRenderer (some 0) none] := by
  refine ⟨⟨rfl, rfl⟩, rfl, rfl, rfl, rfl⟩

/-! ## C2: the pixel buffer after a successful initialisation -/

/-- C2: for width > 0 and height > 0 with width*height*4 below 2^31 and every external call
succeeding, `canvas_initializer` returns 0 and leaves a pixel buffer of exactly height*width*4
bytes, all `0xFF`; the SDL surface and the PlutoVG surface stored in the canvas were both
created over that buffer with pitch width*4. -/
theorem canvas_initializer_white_buffer (s : JSCanvas) (w : World)
    (hw : 0 < s.width) (hh : 0 < s.height) (hsz : s.width * s.height * 4 < 2 ^ 31)
    (hok : AllOk w.oracle) :
    ∃ s1 w1 p q v,
      canvas_initializer s w = .done (0, s1) w1
      ∧ s1.width = s.width ∧ s1.height = s.height
      ∧ s1.pixels = some p
      ∧ w1.mem.lookup p = some (List.replicate (s.height * s.width * 4).toNat 0xFF)
      ∧ s1.surface = some q
      ∧ NativeCall.SDL_CreateSurfaceFrom s.width s.height (some p) (s.width * 4) (some q)
          ∈ w1.native
      ∧ s1.plutovg_surface = some v
      ∧ NativeCall.plutovg_surface_create_for_data (some p) s.width s.height (s.width * 4) (some v)
          ∈ w1.native := by
  have h0 := hok.headD
  have h1 := hok.tail.headD
  have h2 := hok.tail.tail.headD
  have h3 := hok.tail.tail.tail.headD
  have h4 := hok.tail.tail.tail.tail.headD
  have h5 := hok.tail.tail.tail.tail.tail.headD
  have h6 := hok.tail.tail.tail.tail.tail.tail.headD
  have hp1 : s.width * 4 ≤ s.width * s.height * 4 := by nlinarith
  have hp : wrap32 (s.width * 4) = s.width * 4 :=
    wrap32_of_range (by norm_num; omega) (by omega)
  have hn : wrap32 (s.height * (s.width * 4)) = s.height * s.width * 4 := by
    rw [wrap32_of_range (by norm_num; nlinarith) (by nlinarith)]
    ring
  have hz : toSizeT (s.height * s.width * 4) = (s.height * s.width * 4).toNat := by
    unfold toSizeT
    have : 0 ≤ s.height * s.width * 4 := by nlinarith
    have : s.height * s.width * 4 < 2 ^ 31 := by nlinarith
    norm_num at *
    omega
  simp [canvas_initializer, SDL_CreateWindow, SDL_CreateRenderer, malloc, SDL_memset,
    SDL_CreateSurfaceFrom, plutovg_surface_create_for_data, plutovg_canvas_create,
    SDL_SetRenderDrawBlendMode, World.create, World.draw, World.read, World.call,
    h0, h1, h2, h3, h4, h5, h6, hp, hn, hz, setBytes_replicate]
  refine ⟨_, _, ⟨rfl, rfl⟩, ?_⟩
  simp [List.lookup]

/-- The canvas C2 is checked on: 2 by 3, nothing on the tape. -/
theorem canvas_initializer_white_buffer_witness :
    ∃ s1 w1 p q v,
      canvas_initializer { JSCanvas.zeroed with width := 2, height := 3 } (World.start [] [])
        = .done (0, s1) w1
      ∧ s1.width = 2 ∧ s1.height = 3
      ∧ s1.pixels = some p
      ∧ w1.mem.lookup p = some (List.replicate ((3 : Int) * 2 * 4).toNat 0xFF)
      ∧ s1.surface = some q
      ∧ NativeCall.SDL_CreateSurfaceFrom 2 3 (some p) (2 * 4) (some q) ∈ w1.native
      ∧ s1.plutovg_surface = some v
      ∧ NativeCall.plutovg_surface_create_for_data (some p) 2 3 (2 * 4) (some v) ∈ w1.native :=
  canvas_initializer_white_buffer { JSCanvas.zeroed with width := 2, height := 3 }
    (World.start [] []) (by decide) (by decide) (by decide) (by decide)

/-! ## C6: the release sequence of the finalizer -/

/-- C6 (defect of the code): on a canvas whose six handles are all non-NULL, `canvas_finalizer`
releases each handle exactly once, in the order renderer, window, SDL surface, pixel buffer,
PlutoVG surface, PlutoVG canvas: `free(pixels)` comes after `SDL_DestroySurface` but before
`plutovg_surface_destroy`. -/
theorem canvas_finalizer_release_sequence (width height : Int) (fs : Style)
    (win ren surf pix vs vc : Nat) (w : World) :
    ∃ w1,
      canvas_finalizer
          (some ⟨width, height, fs, some win, some ren, some surf, some pix, some vs, some vc⟩) w
        = .done () w1
      ∧ w1.native = w.native ++
          [.SDL_DestroyRenderer (some ren), .SDL_DestroyWindow (some win),
           .SDL_DestroySurface (some surf), .free (some pix),
           .plutovg_surface_destroy (some vs), .plutovg_canvas_destroy (some vc)] := by
  refine ⟨_, rfl, ?_⟩
  simp [SDL_DestroyRenderer, SDL_DestroyWindow, SDL_DestroySurface, free,
    plutovg_surface_destroy, plutovg_canvas_destroy, World.release, World.read, World.call]

/-! ## C3: argument-count validation -/

/-- C3 fails as stated: `quit`, `show` and `pollEvent` do not look at `argc`.  Called with one
argument on the live canvas, `quit` returns undefined, `show` returns undefined after its four
native calls, and `pollEvent` returns undefined after calling `SDL_PollEvent`. -/
theorem argc_ignored_by_quit_show_pollEvent :
    (1 : Int) ∉ spec_accepted_argc .quit
    ∧ js_canvas_quit (.object 0) 1 (intArgs 7 7) liveCanvasWorld = .done .undefined liveCanvasWorld
    ∧ (js_canvas_show (.object 0) 1 (intArgs 7 7) liveCanvasWorld).value? = some .undefined
    ∧ (js_canvas_show (.object 0) 1 (intArgs 7 7) liveCanvasWorld).world.native
        = liveCanvasWorld.native ++
          [.SDL_CreateTextureFromSurface (some 1) (some 3) (some 6),
           .SDL_RenderTexture (some 1) (some 6) 2 3 true,
           .SDL_DestroyTexture (some 6),
           .SDL_RenderPresent (some 1) true]
    ∧ (js_canvas_poll_event (.object 0) 1 (intArgs 7 7) liveCanvasWorld).value? = some .undefined
    ∧ (js_canvas_poll_event (.object 0) 1 (intArgs 7 7) liveCanvasWorld).world.native
        = liveCanvasWorld.native ++ [.SDL_PollEvent none] := by
  refine ⟨by decide, rfl, rfl, rfl, rfl, rfl⟩

/-- C3 as amended: each of arc, beginPath, clear, clearRect, fill, fillRect, setFillColor and
setGlobalAlpha, called with an argument count it does not accept, returns the exception value
and leaves the world as it was (no argument coerced, no native call); `quit` returns undefined
for every argument count, the world unchanged. -/
theorem argc_validated_first (m : Method) (this_val : JSValue) (argc : Int)
    (argv : Nat → JSValueConst) (w : World)
    (hm : m ≠ .show ∧ m ≠ .pollEvent ∧ m ≠ .quit) (h : argc ∉ spec_accepted_argc m) :
    m.run this_val argc argv w = .done .exception w
    ∧ ∀ n : Int, Method.quit.run this_val n argv w = .done .undefined w := by
  refine ⟨?_, fun _ => rfl⟩
  obtain ⟨h1, h2, h3⟩ := hm
  cases m <;> simp [spec_accepted_argc] at h h1 h2 h3 <;>
    simp [Method.run, js_canvas_arc, js_canvas_begin_path, js_canvas_clear, js_canvas_clear_rect,
      js_canvas_fill, js_canvas_fill_rect, js_canvas_set_fill_color, js_canvas_set_global_alpha, h]

/-- The amended C3 on `setFillColor` called with two arguments on the live canvas. -/
theorem argc_validated_first_witness :
    Method.setFillColor.run (.object 0) 2 (intArgs 7 7) liveCanvasWorld
        = .done .exception liveCanvasWorld
    ∧ ∀ n : Int, Method.quit.run (.object 0) n (intArgs 7 7) liveCanvasWorld
        = .done .undefined liveCanvasWorld :=
  argc_validated_first .setFillColor (.object 0) 2 (intArgs 7 7) liveCanvasWorld
    (by decide) (by decide)

/-! ## C4: the receiver check -/

/-- C4 fails as stated: `quit` does not look at its receiver.  Called with no argument on
`undefined`, which carries no Canvas payload, it returns undefined, not the exception value. -/
theorem quit_ignores_receiver :
    JS_GetOpaque2_canvas (World.start [] []) .undefined = none
    ∧ js_canvas_quit .undefined 0 (intArgs 0 0) (World.start [] [])
        = .done .undefined (World.start [] []) := by
  exact ⟨rfl, rfl⟩

/-- C4 as amended: when the this-value carries no Canvas payload, every method other than `quit`
and both property getters return the exception value and leave the world as it was (no native
call, no read of a canvas field); `quit` returns undefined, the world unchanged as well. -/
theorem receiver_required (this_val : JSValue) (w : World)
    (h : JS_GetOpaque2_canvas w this_val = none) :
    (∀ (m : Method) (argc : Int) (argv : Nat → JSValueConst), m ≠ .quit →
        m.run this_val argc argv w = .done .exception w)
    ∧ (∀ magic : Int, js_canvas_get_wh this_val magic w = .done .exception w)
    ∧ (∀ (argc : Int) (argv : Nat → JSValueConst),
        Method.quit.run this_val argc argv w = .done .undefined w) := by
  refine ⟨?_, ?_, fun _ _ => rfl⟩
  · intro m argc argv hm
    cases m <;> simp at hm <;>
      simp [Method.run, js_canvas_arc, js_canvas_begin_path, js_canvas_clear,
        js_canvas_clear_rect, js_canvas_fill, js_canvas_fill_rect, js_canvas_set_fill_color,
        js_canvas_set_global_alpha, js_canvas_show, js_canvas_poll_event, h]
  · intro magic
    simp [js_canvas_get_wh, h]

/-- The amended C4 on the value `undefined` at process start. -/
theorem receiver_required_witness :
    (∀ (m : Method) (argc : Int) (argv : Nat → JSValueConst), m ≠ .quit →
        m.run .undefined argc argv (World.start [] []) = .done .exception (World.start [] []))
    ∧ (∀ magic : Int,
        js_canvas_get_wh .undefined magic (World.start [] [])
          = .done .exception (World.start [] []))
    ∧ (∀ (argc : Int) (argv : Nat → JSValueConst),
        Method.quit.run .undefined argc argv (World.start [] [])
          = .done .undefined (World.start [] [])) :=
  receiver_required .undefined (World.start [] []) rfl

/-! ## C5: the transient texture of `show` -/

theorem countP_append_erase (l : List Handle) (h : Handle) (p : Handle → Bool) :
    ((l ++ [h]).erase h).countP p = l.countP p := by
  have hmem : h ∈ l ++ [h] := by simp
  have h1 : (l ++ [h]).Perm (h :: (l ++ [h]).erase h) := List.perm_cons_erase hmem
  have h2 : (l ++ [h]).Perm (h :: l) := List.perm_append_singleton h l
  have h3 : ((l ++ [h]).erase h).Perm l := (h1.symm.trans h2).cons_inv
  exact h3.countP_eq p

/-- C5: on a live canvas, whatever the outcomes `o1`, `o2`, `o3` of
`SDL_CreateTextureFromSurface`, `SDL_RenderTexture` and `SDL_RenderPresent`, `js_canvas_show`
returns with as many live textures as before; its native calls are the creation of the texture
`t`, the render of `t`, one `SDL_DestroyTexture` of that same `t`, and the present when the
render succeeded; it returns the exception value if the render or the present failed and
undefined otherwise. -/
theorem js_canvas_show_texture_neutral (this_val : JSValue) (argc : Int)
    (argv : Nat → JSValueConst) (w : World) (s : JSCanvas) (o1 o2 o3 : Bool) (rest : List Bool)
    (h : JS_GetOpaque2_canvas w this_val = some s) (ho : w.oracle = o1 :: o2 :: o3 :: rest) :
    ∃ (t : Ptr) (w1 : World),
      js_canvas_show this_val argc argv w
        = .done (if o2 && o3 then .undefined else .exception) w1
      ∧ w1.liveCount .texture = w.liveCount .texture
      ∧ t = (if o1 then some w.next else none)
      ∧ w1.native = w.native ++
          ([.SDL_CreateTextureFromSurface s.renderer s.surface t,
            .SDL_RenderTexture s.renderer t s.width s.height o2,
            .SDL_DestroyTexture t]
            ++ (if o2 then [.SDL_RenderPresent s.renderer o3] else []))
      ∧ (w1.native.drop w.native.length).count (.SDL_DestroyTexture t) = 1 := by
  cases o1 <;> cases o2 <;> cases o3 <;>
    simp [js_canvas_show, h, ho, SDL_CreateTextureFromSurface, SDL_RenderTexture,
      SDL_DestroyTexture, SDL_RenderPresent, World.create, World.draw, World.read, World.call,
      World.release, World.liveCount, nextOutcome, countP_append_erase]

/-- C5 on the live canvas, with the texture created and the present failing. -/
theorem js_canvas_show_texture_neutral_witness :
    ∃ (t : Ptr) (w1 : World),
      js_canvas_show (.object 0) 0 (intArgs 0 0)
          { liveCanvasWorld with oracle := [true, true, false] }
        = .done (if true && false then .undefined else .exception) w1
      ∧ w1.liveCount .texture
          = World.liveCount { liveCanvasWorld with oracle := [true, true, false] } .texture
      ∧ t = (if true then
          some (World.next { liveCanvasWorld with oracle := [true, true, false] }) else none)
      ∧ w1.native = World.native { liveCanvasWorld with oracle := [true, true, false] } ++
          ([.SDL_CreateTextureFromSurface (some 1) (some 3) t,
            .SDL_RenderTexture (some 1) t 2 3 true,
            .SDL_DestroyTexture t]
            ++ (if true then [.SDL_RenderPresent (some 1) false] else []))
      ∧ (w1.native.drop
            (World.native { liveCanvasWorld with oracle := [true, true, false] }).length).count
          (.SDL_DestroyTexture t) = 1 :=
  js_canvas_show_texture_neutral (.object 0) 0 (intArgs 0 0)
    { liveCanvasWorld with oracle := [true, true, false] }
    ⟨2, 3, ⟨⟨0, 0, 0, 0⟩⟩, some 0, some 1, some 3, some 2, some 4, some 5⟩ true true false []
    rfl rfl

/-! ## C7: polling an empty queue -/

/-- C7: on a live canvas with an empty native event queue, `js_canvas_poll_event` returns
undefined (not the exception value); the only change to the world is the `SDL_PollEvent` call
in the native trace, so no object is allocated and the canvas is unchanged. -/
theorem js_canvas_poll_event_empty_queue (this_val : JSValue) (argc : Int)
    (argv : Nat → JSValueConst) (w : World) (s : JSCanvas)
    (h : JS_GetOpaque2_canvas w this_val = some s) (hq : w.queue = []) :
    js_canvas_poll_event this_val argc argv w
        = .done .undefined { w with native := w.native ++ [.SDL_PollEvent none] }
    ∧ (js_canvas_poll_event this_val argc argv w).world.objs = w.objs
    ∧ JS_GetOpaque2_canvas (js_canvas_poll_event this_val argc argv w).world this_val = some s := by
  have key : js_canvas_poll_event this_val argc argv w
      = .done .undefined { w with native := w.native ++ [.SDL_PollEvent none] } := by
    simp [js_canvas_poll_event, h, SDL_PollEvent, hq, World.call]
  refine ⟨key, ?_, ?_⟩
  · rw [key]; rfl
  · rw [key]; exact h

/-- C7 on the live canvas, whose queue is empty. -/
theorem js_canvas_poll_event_empty_queue_witness :
    js_canvas_poll_event (.object 0) 0 (intArgs 0 0) liveCanvasWorld
        = .done .undefined
          { liveCanvasWorld with native := liveCanvasWorld.native ++ [.SDL_PollEvent none] }
    ∧ (js_canvas_poll_event (.object 0) 0 (intArgs 0 0) liveCanvasWorld).world.objs
        = liveCanvasWorld.objs
    ∧ JS_GetOpaque2_canvas
        (js_canvas_poll_event (.object 0) 0 (intArgs 0 0) liveCanvasWorld).world (.object 0)
        = some ⟨2, 3, ⟨⟨0, 0, 0, 0⟩⟩, some 0, some 1, some 3, some 2, some 4, some 5⟩ :=
  js_canvas_poll_event_empty_queue (.object 0) 0 (intArgs 0 0) liveCanvasWorld
    ⟨2, 3, ⟨⟨0, 0, 0, 0⟩⟩, some 0, some 1, some 3, some 2, some 4, some 5⟩ rfl rfl

/-! ## Frame: what method calls leave alone -/

theorem Preserves.refl (w : World) : Preserves w w := fun _ o h => ⟨o, h, rfl⟩

theorem Preserves.of_objs_eq {w w1 : World} (h : w1.objs = w.objs) : Preserves w w1 := by
  intro id o ho
  exact ⟨o, by rw [h]; exact ho, rfl⟩

theorem Preserves.trans {a b c : World} (h1 : Preserves a b) (h2 : Preserves b c) :
    Preserves a c := by
  intro id o ho
  obtain ⟨o1, ho1, e1⟩ := h1 id o ho
  obtain ⟨o2, ho2, e2⟩ := h2 id o1 ho1
  exact ⟨o2, ho2, e2.trans e1⟩

theorem getOpaque2_canvas_some {w : World} {v : JSValue} {s : JSCanvas}
    (h : JS_GetOpaque2_canvas w v = some s) :
    ∃ id, v = .object id ∧ w.objs[id]? = some (some (.canvas (some s))) := by
  cases v <;> simp [JS_GetOpaque2_canvas, JS_GetOpaque_canvas, World.obj] at h
  rename_i id
  refine ⟨id, rfl, ?_⟩
  cases hx : w.objs[id]? with
  | none => simp [hx] at h
  | some x =>
    cases x with
    | none => simp [hx] at h
    | some o =>
      cases o with
      | canvas c => simp [hx] at h; simp [h]
      | event e => simp [hx] at h
      | other => simp [hx] at h

theorem js_canvas_arc_frame (this_val : JSValue) (argc : Int) (argv : Nat → JSValueConst)
    (w : World) : ∃ v w1, js_canvas_arc this_val argc argv w = .done v w1 ∧ w1.objs = w.objs := by
  simp only [js_canvas_arc, JS_ToFloat64, JS_ToBool]
  repeat' split
  all_goals exact ⟨_, _, rfl, by simp [World.coerce, World.read, World.call]⟩

theorem js_canvas_begin_path_frame (this_val : JSValue) (argc : Int) (argv : Nat → JSValueConst)
    (w : World) :
    ∃ v w1, js_canvas_begin_path this_val argc argv w = .done v w1 ∧ w1.objs = w.objs := by
  simp only [js_canvas_begin_path]
  repeat' split
  all_goals exact ⟨_, _, rfl, by simp [World.coerce, World.read, World.call]⟩

theorem js_canvas_clear_frame (this_val : JSValue) (argc : Int) (argv : Nat → JSValueConst)
    (w : World) : ∃ v w1, js_canvas_clear this_val argc argv w = .done v w1 ∧ w1.objs = w.objs := by
  simp only [js_canvas_clear, SDL_SetRenderDrawColor, SDL_RenderClear]
  repeat' split
  all_goals exact ⟨_, _, rfl, by simp [World.draw, World.read, World.call]⟩

theorem js_canvas_clear_rect_frame (this_val : JSValue) (argc : Int) (argv : Nat → JSValueConst)
    (w : World) :
    ∃ v w1, js_canvas_clear_rect this_val argc argv w = .done v w1 ∧ w1.objs = w.objs := by
  simp only [js_canvas_clear_rect, JS_ToFloat64, SDL_SetRenderDrawColor, SDL_RenderFillRect]
  repeat' split
  all_goals exact ⟨_, _, rfl, by simp [World.draw, World.coerce, World.read, World.call]⟩

theorem js_canvas_fill_frame (this_val : JSValue) (argc : Int) (argv : Nat → JSValueConst)
    (w : World) : ∃ v w1, js_canvas_fill this_val argc argv w = .done v w1 ∧ w1.objs = w.objs := by
  simp only [js_canvas_fill]
  repeat' split
  all_goals exact ⟨_, _, rfl, by simp [World.read, World.call]⟩

theorem js_canvas_fill_rect_frame (this_val : JSValue) (argc : Int) (argv : Nat → JSValueConst)
    (w : World) :
    ∃ v w1, js_canvas_fill_rect this_val argc argv w = .done v w1 ∧ w1.objs = w.objs := by
  simp only [js_canvas_fill_rect, JS_ToFloat64]
  repeat' split
  all_goals exact ⟨_, _, rfl, by simp [World.coerce, World.read, World.call]⟩

theorem js_canvas_set_global_alpha_frame (this_val : JSValue) (argc : Int)
    (argv : Nat → JSValueConst) (w : World) :
    ∃ v w1, js_canvas_set_global_alpha this_val argc argv w = .done v w1 ∧ w1.objs = w.objs := by
  simp only [js_canvas_set_global_alpha, JS_ToFloat64]
  repeat' split
  all_goals exact ⟨_, _, rfl, by simp [World.coerce, World.read, World.call]⟩

theorem js_canvas_show_frame (this_val : JSValue) (argc : Int) (argv : Nat → JSValueConst)
    (w : World) : ∃ v w1, js_canvas_show this_val argc argv w = .done v w1 ∧ w1.objs = w.objs := by
  simp only [js_canvas_show, SDL_CreateTextureFromSurface, SDL_RenderTexture, SDL_RenderPresent,
    SDL_DestroyTexture, World.create, World.release]
  repeat' split
  all_goals exact ⟨_, _, rfl, by simp [World.draw, World.read, World.call]⟩

/-- A store into the canvas payload that changes the fill style only. -/
theorem storeCanvas_preserves {w w0 w1 : World} {v : JSValue} {s : JSCanvas} {fs : Style}
    (h : JS_GetOpaque2_canvas w v = some s)
    (h1 : w1.objs = (storeCanvas v { s with fill_style := fs } w0).objs)
    (h0 : w0.objs = w.objs) : Preserves w w1 := by
  obtain ⟨id0, rfl, hc⟩ := getOpaque2_canvas_some h
  intro id o ho
  rw [h1]
  simp only [storeCanvas, JS_SetOpaque, h0]
  by_cases hid : id0 = id
  · subst hid
    have hlt : id0 < w.objs.length := (List.getElem?_eq_some.mp hc).1
    rw [hc] at ho
    refine ⟨_, List.getElem?_set_self hlt, ?_⟩
    simp only [Option.some.injEq] at ho
    subst ho
    rfl
  · exact ⟨o, by rw [List.getElem?_set_ne hid]; exact ho, rfl⟩

theorem js_canvas_set_fill_color_frame (this_val : JSValue) (argc : Int)
    (argv : Nat → JSValueConst) (w : World) :
    ∃ v w1, js_canvas_set_fill_color this_val argc argv w = .done v w1 ∧ Preserves w w1 := by
  simp only [js_canvas_set_fill_color, JS_ToInt32]
  split
  · exact ⟨_, _, rfl, Preserves.refl w⟩
  · split
    · exact ⟨_, _, rfl, Preserves.refl w⟩
    · rename_i s hs
      repeat' split
      all_goals refine ⟨_, _, rfl, ?_⟩
      all_goals first
        | exact Preserves.of_objs_eq rfl
        | exact storeCanvas_preserves hs rfl rfl

theorem js_canvas_poll_event_frame (this_val : JSValue) (argc : Int) (argv : Nat → JSValueConst)
    (w : World) :
    ∃ v w1, js_canvas_poll_event this_val argc argv w = .done v w1 ∧ Preserves w w1 := by
  have hold : ∀ (l : List (Option JSObject)) (x : Option JSObject) (id : Nat) (o : JSObject),
      l[id]? = some (some o) → (l ++ [x])[id]? = some (some o) := by
    intro l x id o ho
    have hlt : id < l.length := (List.getElem?_eq_some.mp ho).1
    rw [List.getElem?_append_left hlt]
    exact ho
  simp only [js_canvas_poll_event]
  split
  · exact ⟨_, _, rfl, Preserves.refl w⟩
  · cases hq : w.queue with
    | nil =>
      exact ⟨_, _, by simp [SDL_PollEvent, hq]; exact ⟨rfl, rfl⟩,
        Preserves.of_objs_eq (by simp [World.call])⟩
    | cons e rest =>
      cases h1 : nextOutcome w.oracle with
      | false =>
        exact ⟨_, _, by simp [SDL_PollEvent, hq, JS_NewObject, World.draw, World.call, h1]; exact ⟨rfl, rfl⟩,
          Preserves.of_objs_eq (by simp)⟩
      | true =>
        cases h2 : nextOutcome w.oracle.tail with
        | false =>
          refine ⟨.exception, _, by
            simp [SDL_PollEvent, hq, JS_NewObject, World.draw, World.call, h1, h2, JS_FreeValue,
              js_event_finalizer]
            exact rfl, ?_⟩
          intro id o ho
          exact ⟨o, hold w.objs _ id o ho, rfl⟩
        | true =>
          refine ⟨_, _, by
            simp [SDL_PollEvent, hq, JS_NewObject, World.draw, World.call, h1, h2, JS_SetOpaque]
            exact ⟨rfl, rfl⟩, ?_⟩
          intro id o ho
          exact ⟨o, hold w.objs _ id o ho, rfl⟩

/-- Every method call returns, and leaves every object in place, changed at most in the fill
style of a canvas. -/
theorem Method.run_frame (m : Method) (this_val : JSValue) (argc : Int)
    (argv : Nat → JSValueConst) (w : World) :
    ∃ v w1, m.run this_val argc argv w = .done v w1 ∧ Preserves w w1 := by
  cases m
  case setFillColor => exact js_canvas_set_fill_color_frame this_val argc argv w
  case pollEvent => exact js_canvas_poll_event_frame this_val argc argv w
  case quit => exact ⟨_, _, rfl, Preserves.refl w⟩
  case arc =>
    obtain ⟨v, w1, h, e⟩ := js_canvas_arc_frame this_val argc argv w
    exact ⟨v, w1, h, Preserves.of_objs_eq e⟩
  case beginPath =>
    obtain ⟨v, w1, h, e⟩ := js_canvas_begin_path_frame this_val argc argv w
    exact ⟨v, w1, h, Preserves.of_objs_eq e⟩
  case clear =>
    obtain ⟨v, w1, h, e⟩ := js_canvas_clear_frame this_val argc argv w
    exact ⟨v, w1, h, Preserves.of_objs_eq e⟩
  case clearRect =>
    obtain ⟨v, w1, h, e⟩ := js_canvas_clear_rect_frame this_val argc argv w
    exact ⟨v, w1, h, Preserves.of_objs_eq e⟩
  case fill =>
    obtain ⟨v, w1, h, e⟩ := js_canvas_fill_frame this_val argc argv w
    exact ⟨v, w1, h, Preserves.of_objs_eq e⟩
  case fillRect =>
    obtain ⟨v, w1, h, e⟩ := js_canvas_fill_rect_frame this_val argc argv w
    exact ⟨v, w1, h, Preserves.of_objs_eq e⟩
  case setGlobalAlpha =>
    obtain ⟨v, w1, h, e⟩ := js_canvas_set_global_alpha_frame this_val argc argv w
    exact ⟨v, w1, h, Preserves.of_objs_eq e⟩
  all_goals
    obtain ⟨v, w1, h, e⟩ := js_canvas_show_frame this_val argc argv w
    exact ⟨v, w1, h, Preserves.of_objs_eq e⟩

/-- A script of method calls runs to its end and preserves the objects. -/
theorem runCalls_frame (this_val : JSValue) (calls : List Call) (w : World) :
    ∃ w1, runCalls this_val calls w = .done () w1 ∧ Preserves w w1 := by
  induction calls generalizing w with
  | nil => exact ⟨w, rfl, Preserves.refl w⟩
  | cons c rest ih =>
    obtain ⟨v, w1, h1, p1⟩ := Method.run_frame c.method this_val c.argc c.argv w
    obtain ⟨w2, h2, p2⟩ := ih w1
    exact ⟨w2, by simp [runCalls, h1, h2], p1.trans p2⟩

/-! ## C8: poll, then read -/

theorem and_mask_ne_zero (x m : Nat) : ((x &&& m) != 0) = true ↔ hasAnyBit x m := by
  rw [bne_iff_ne]
  constructor
  · intro h
    obtain ⟨i, hi⟩ := Nat.ne_zero_implies_bit_true h
    rw [Nat.testBit_and, Bool.and_eq_true] at hi
    exact ⟨i, hi.2, hi.1⟩
  · rintro ⟨i, hm, hx⟩ h0
    have : (x &&& m).testBit i = true := by rw [Nat.testBit_and, hx, hm]; rfl
    rw [h0, Nat.zero_testBit] at this
    exact Bool.false_ne_true this

theorem core_eq_event {o : JSObject} {e : SDL_Event}
    (h : o.core = (JSObject.event (some e)).core) : o = .event (some e) := by
  cases o with
  | canvas c => cases c <;> simp [JSObject.core] at h
  | event x => simpa [JSObject.core] using h
  | other => simp [JSObject.core] at h

theorem js_event_get_attr_of_payload {w : World} {id : Nat} {e : SDL_Event}
    (h : w.objs[id]? = some (some (.event (some e)))) (he : e.inRange) :
    js_event_get_attr (.object id) 0 w = .number e.type
    ∧ js_event_get_attr (.object id) 1 w = .number e.key_key
    ∧ (∃ b, js_event_get_attr (.object id) 2 w = .bool b
        ∧ (b = true ↔ hasAnyBit e.key_mod SDL_KMOD_ALT))
    ∧ (∃ b, js_event_get_attr (.object id) 3 w = .bool b
        ∧ (b = true ↔ hasAnyBit e.key_mod SDL_KMOD_CTRL))
    ∧ (∃ b, js_event_get_attr (.object id) 4 w = .bool b
        ∧ (b = true ↔ hasAnyBit e.key_mod SDL_KMOD_SHIFT))
    ∧ (∃ b, js_event_get_attr (.object id) 5 w = .bool b
        ∧ (b = true ↔ hasAnyBit e.key_mod SDL_KMOD_GUI))
    ∧ js_event_get_attr (.object id) 6 w = .bool e.key_repeat
    ∧ js_event_get_attr (.object id) 10 w = .number e.button_button
    ∧ js_event_get_attr (.object id) 11 w = .number e.button_x
    ∧ js_event_get_attr (.object id) 12 w = .number e.button_y := by
  obtain ⟨ht, _, _, _, hx, hy⟩ := he
  have hp : JS_GetOpaque2_event w (.object id) = some e := by
    simp [JS_GetOpaque2_event, World.obj, h]
  have h0 : wrap32 (e.type : Int) = e.type :=
    wrap32_of_range (by norm_num; omega) (by exact_mod_cast ht)
  refine ⟨?_, ?_, ⟨_, ?_, and_mask_ne_zero _ _⟩, ⟨_, ?_, and_mask_ne_zero _ _⟩,
    ⟨_, ?_, and_mask_ne_zero _ _⟩, ⟨_, ?_, and_mask_ne_zero _ _⟩, ?_, ?_, ?_, ?_⟩
  all_goals
    simp [js_event_get_attr, hp, JS_NewInt32, JS_NewInt64, h0, wrap32_of_range hx.1 hx.2,
      wrap32_of_range hy.1 hy.2]

/-- C8: when `SDL_PollEvent` hands out the event record `e` (members within their C ranges) and
the two engine allocations succeed, `js_canvas_poll_event` on a live canvas returns one new
Event object, the only object added to the heap, whose payload equals `e`; and after any
further method calls on any receiver (later `pollEvent` calls among them), which all return,
`js_event_get_attr` on that object still yields type = e.type (selector 0), code = e.key.key
(1), altKey/ctrlKey/shiftKey/metaKey = whether e.key.mod has a bit of the ALT/CTRL/SHIFT/GUI
mask set (2-5), repeat = e.key.repeat (6) and button/x/y = e.button.button/x/y (10-12). -/
theorem poll_then_read_round_trip (this_val : JSValue) (argc : Int) (argv : Nat → JSValueConst)
    (w : World) (s : JSCanvas) (e : SDL_Event) (rest : List SDL_Event) (tape : List Bool)
    (h : JS_GetOpaque2_canvas w this_val = some s) (hq : w.queue = e :: rest)
    (ho : w.oracle = true :: true :: tape) (he : e.inRange) :
    ∃ id w1,
      js_canvas_poll_event this_val argc argv w = .done (.object id) w1
      ∧ id = w.objs.length
      ∧ w1.objs = w.objs ++ [some (.event (some e))]
      ∧ w1.queue = rest
      ∧ ∀ (recv : JSValue) (calls : List Call), ∃ w2,
          runCalls recv calls w1 = .done () w2
          ∧ js_event_get_attr (.object id) 0 w2 = .number e.type
          ∧ js_event_get_attr (.object id) 1 w2 = .number e.key_key
          ∧ (∃ b, js_event_get_attr (.object id) 2 w2 = .bool b
              ∧ (b = true ↔ hasAnyBit e.key_mod SDL_KMOD_ALT))
          ∧ (∃ b, js_event_get_attr (.object id) 3 w2 = .bool b
              ∧ (b = true ↔ hasAnyBit e.key_mod SDL_KMOD_CTRL))
          ∧ (∃ b, js_event_get_attr (.object id) 4 w2 = .bool b
              ∧ (b = true ↔ hasAnyBit e.key_mod SDL_KMOD_SHIFT))
          ∧ (∃ b, js_event_get_attr (.object id) 5 w2 = .bool b
              ∧ (b = true ↔ hasAnyBit e.key_mod SDL_KMOD_GUI))
          ∧ js_event_get_attr (.object id) 6 w2 = .bool e.key_repeat
          ∧ js_event_get_attr (.object id) 10 w2 = .number e.button_button
          ∧ js_event_get_attr (.object id) 11 w2 = .number e.button_x
          ∧ js_event_get_attr (.object id) 12 w2 = .number e.button_y := by
  refine ⟨w.objs.length,
    { w with oracle := tape, queue := rest, objs := w.objs ++ [some (.event (some e))],
             native := w.native ++ [.SDL_PollEvent (some e)] }, ?_, rfl, rfl, rfl, ?_⟩
  · simp [js_canvas_poll_event, h, SDL_PollEvent, hq, JS_NewObject, World.draw, World.call, ho,
      nextOutcome, JS_SetOpaque]
  · intro recv calls
    obtain ⟨w2, hrun, hpres⟩ := runCalls_frame recv calls
      { w with oracle := tape, queue := rest, objs := w.objs ++ [some (.event (some e))],
               native := w.native ++ [.SDL_PollEvent (some e)] }
    obtain ⟨o1, ho1, hcore⟩ := hpres w.objs.length (.event (some e))
      (List.getElem?_concat_length _ _)
    rw [core_eq_event hcore] at ho1
    exact ⟨w2, hrun, js_event_get_attr_of_payload ho1 he⟩

/-- The witness of C8: a key-down event is polled on the live canvas. -/
theorem poll_then_read_round_trip_witness :
    ∃ id w1,
      js_canvas_poll_event (.object 0) 0 (intArgs 0 0)
          { liveCanvasWorld with oracle := [true, true], queue := [keyDownAltA] }
        = .done (.object id) w1
      ∧ id = (World.objs
          { liveCanvasWorld with oracle := [true, true], queue := [keyDownAltA] }).length
      ∧ w1.objs = World.objs
          { liveCanvasWorld with oracle := [true, true], queue := [keyDownAltA] }
          ++ [some (.event (some keyDownAltA))]
      ∧ w1.queue = []
      ∧ ∀ (recv : JSValue) (calls : List Call), ∃ w2,
          runCalls recv calls w1 = .done () w2
          ∧ js_event_get_attr (.object id) 0 w2 = .number keyDownAltA.type
          ∧ js_event_get_attr (.object id) 1 w2 = .number keyDownAltA.key_key
          ∧ (∃ b, js_event_get_attr (.object id) 2 w2 = .bool b
              ∧ (b = true ↔ hasAnyBit keyDownAltA.key_mod SDL_KMOD_ALT))
          ∧ (∃ b, js_event_get_attr (.object id) 3 w2 = .bool b
              ∧ (b = true ↔ hasAnyBit keyDownAltA.key_mod SDL_KMOD_CTRL))
          ∧ (∃ b, js_event_get_attr (.object id) 4 w2 = .bool b
              ∧ (b = true ↔ hasAnyBit keyDownAltA.key_mod SDL_KMOD_SHIFT))
          ∧ (∃ b, js_event_get_attr (.object id) 5 w2 = .bool b
              ∧ (b = true ↔ hasAnyBit keyDownAltA.key_mod SDL_KMOD_GUI))
          ∧ js_event_get_attr (.object id) 6 w2 = .bool keyDownAltA.key_repeat
          ∧ js_event_get_attr (.object id) 10 w2 = .number keyDownAltA.button_button
          ∧ js_event_get_attr (.object id) 11 w2 = .number keyDownAltA.button_x
          ∧ js_event_get_attr (.object id) 12 w2 = .number keyDownAltA.button_y :=
  poll_then_read_round_trip (.object 0) 0 (intArgs 0 0)
    { liveCanvasWorld with oracle := [true, true], queue := [keyDownAltA] }
    ⟨2, 3, ⟨⟨0, 0, 0, 0⟩⟩, some 0, some 1, some 3, some 2, some 4, some 5⟩ keyDownAltA [] []
    rfl rfl rfl (by decide)

/-! ## C9: the stored fill colour -/

/-- C9: on a live canvas, whatever colour was stored, `js_canvas_set_fill_color` with three or
four integer arguments r, g, b (and a, taken as 255 when only three are given) returns
undefined and leaves (r mod 256, g mod 256, b mod 256, a mod 256) as the stored colour, the
other fields untouched; channels given in 0..255 are stored as they are; a `fill()` right after
pushes that stored colour to the rasterizer before filling. -/
theorem js_canvas_set_fill_color_last_write_wins (this_val : JSValue) (argc : Int)
    (argv : Nat → JSValueConst) (w : World) (s : JSCanvas) (r g b a : Int)
    (h : JS_GetOpaque2_canvas w this_val = some s) (hc : argc = 3 ∨ argc = 4)
    (hr : (argv 0).toInt32 = some r) (hg : (argv 1).toInt32 = some g)
    (hb : (argv 2).toInt32 = some b) (ha : argc = 4 → (argv 3).toInt32 = some a) :
    ∃ w1,
      js_canvas_set_fill_color this_val argc argv w = .done .undefined w1
      ∧ JS_GetOpaque2_canvas w1 this_val = some { s with fill_style :=
          ⟨⟨(r % 256).toNat, (g % 256).toNat, (b % 256).toNat,
            ((if argc = 4 then a else 255) % 256).toNat⟩⟩ }
      ∧ ((0 ≤ r ∧ r < 256) → ((r % 256).toNat : Int) = r)
      ∧ ((0 ≤ g ∧ g < 256) → ((g % 256).toNat : Int) = g)
      ∧ ((0 ≤ b ∧ b < 256) → ((b % 256).toNat : Int) = b)
      ∧ ((0 ≤ a ∧ a < 256) → argc = 4 →
          ((((if argc = 4 then a else 255) % 256).toNat : Nat) : Int) = a)
      ∧ ∀ argv2 : Nat → JSValueConst, ∃ w2,
          js_canvas_fill this_val 0 argv2 w1 = .done .undefined w2
          ∧ w2.native = w1.native ++
              [.plutovg_canvas_set_rgba s.plutovg_canvas (r % 256).toNat (g % 256).toNat
                  (b % 256).toNat ((if argc = 4 then a else 255) % 256).toNat,
               .plutovg_canvas_fill s.plutovg_canvas] := by
  obtain ⟨id, rfl, hobj⟩ := getOpaque2_canvas_some h
  have hlt : id < w.objs.length := (List.getElem?_eq_some.mp hobj).1
  have hget : ∀ (w1 : World) (c : JSCanvas), w1.objs = w.objs.set id (some (.canvas (some c))) →
      JS_GetOpaque2_canvas w1 (.object id) = some c := by
    intro w1 c e
    simp [JS_GetOpaque2_canvas, JS_GetOpaque_canvas, World.obj, e, List.getElem?_set_self hlt]
  have ha1 : (if argc = 4 then JS_ToInt32 argv 3
        (((w.coerce (.JS_ToInt32 0)).coerce (.JS_ToInt32 1)).coerce (.JS_ToInt32 2))
      else (some 255, ((w.coerce (.JS_ToInt32 0)).coerce (.JS_ToInt32 1)).coerce (.JS_ToInt32 2))).1
      = some (if argc = 4 then a else 255) := by
    by_cases h4 : argc = 4
    · simp [h4, JS_ToInt32, ha h4]
    · simp [h4]
  have hcc : ¬ (argc ≠ 3 ∧ argc ≠ 4) := by omega
  have hval : (js_canvas_set_fill_color (.object id) argc argv w).value? = some .undefined := by
    simp only [js_canvas_set_fill_color, hcc, h, if_false]
    simp only [JS_ToInt32, hr, hg, hb] at ha1 ⊢
    simp only [ha1]
    rfl
  have hobjs : (js_canvas_set_fill_color (.object id) argc argv w).world.objs
      = w.objs.set id (some (.canvas (some { s with fill_style :=
          ⟨⟨(r % 256).toNat, (g % 256).toNat, (b % 256).toNat,
            ((if argc = 4 then a else 255) % 256).toNat⟩⟩ }))) := by
    simp only [js_canvas_set_fill_color, hcc, h, if_false]
    simp only [JS_ToInt32, hr, hg, hb] at ha1 ⊢
    simp only [ha1]
    by_cases h4 : argc = 4 <;>
      simp [h4, Run.world, storeCanvas, JS_SetOpaque, World.coerce, World.read, World.call, toUint8]
  refine ⟨_, Run.eq_done_of_value hval, hget _ _ hobjs, ?_, ?_, ?_, ?_, ?_⟩
  · intro hx; omega
  · intro hx; omega
  · intro hx; omega
  · intro hx h4; simp only [h4, if_true]; omega
  · intro argv2
    have hg2 := hget _ _ hobjs
    generalize (js_canvas_set_fill_color (.object id) argc argv w).world = W at hg2 ⊢
    refine ⟨_, Run.eq_done_of_value ?_, ?_⟩
    · simp [js_canvas_fill, hg2, Run.value?]
    · simp [js_canvas_fill, hg2, Run.world, World.read, World.call]

/-- The witness of C9: `setFillColor(255, 0, 0, 255)` on the live canvas. -/
theorem js_canvas_set_fill_color_last_write_wins_witness :
    ∃ w1,
      js_canvas_set_fill_color (.object 0) 4 (rgbaArgs 255 0 0 255) liveCanvasWorld
        = .done .undefined w1
      ∧ JS_GetOpaque2_canvas w1 (.object 0)
        = some { (⟨2, 3, ⟨⟨0, 0, 0, 0⟩⟩, some 0, some 1, some 3, some 2, some 4, some 5⟩ : JSCanvas)
            with fill_style :=
          ⟨⟨((255 : Int) % 256).toNat, ((0 : Int) % 256).toNat, ((0 : Int) % 256).toNat,
            ((if (4 : Int) = 4 then (255 : Int) else 255) % 256).toNat⟩⟩ }
      ∧ ((0 ≤ (255 : Int) ∧ (255 : Int) < 256) → ((((255 : Int) % 256).toNat : Nat) : Int) = 255)
      ∧ ((0 ≤ (0 : Int) ∧ (0 : Int) < 256) → ((((0 : Int) % 256).toNat : Nat) : Int) = 0)
      ∧ ((0 ≤ (0 : Int) ∧ (0 : Int) < 256) → ((((0 : Int) % 256).toNat : Nat) : Int) = 0)
      ∧ ((0 ≤ (255 : Int) ∧ (255 : Int) < 256) → (4 : Int) = 4 →
          ((((if (4 : Int) = 4 then (255 : Int) else 255) % 256).toNat : Nat) : Int) = 255)
      ∧ ∀ argv2 : Nat → JSValueConst, ∃ w2,
          js_canvas_fill (.object 0) 0 argv2 w1 = .done .undefined w2
          ∧ w2.native = w1.native ++
              [.plutovg_canvas_set_rgba (some 5) ((255 : Int) % 256).toNat ((0 : Int) % 256).toNat
                  ((0 : Int) % 256).toNat ((if (4 : Int) = 4 then (255 : Int) else 255) % 256).toNat,
               .plutovg_canvas_fill (some 5)] :=
  js_canvas_set_fill_color_last_write_wins (.object 0) 4 (rgbaArgs 255 0 0 255) liveCanvasWorld
    ⟨2, 3, ⟨⟨0, 0, 0, 0⟩⟩, some 0, some 1, some 3, some 2, some 4, some 5⟩ 255 0 0 255
    rfl (by decide) rfl rfl rfl (fun _ => rfl)

/-! ## C10: width and height after construction -/

theorem World.create_objs (w : World) (k : Kind) : (w.create k).2.objs = w.objs := by
  unfold World.create
  split <;> rfl

theorem SDL_CreateWindow_objs (a b : Int) (w : World) :
    (SDL_CreateWindow a b w).2.objs = w.objs := by
  simp [SDL_CreateWindow, World.call, World.create_objs]

theorem SDL_CreateRenderer_objs (p : Ptr) (w : World) :
    (SDL_CreateRenderer p w).2.objs = w.objs := by
  simp [SDL_CreateRenderer, World.call, World.create_objs]

theorem malloc_objs (n : Nat) (w : World) : (malloc n w).2.objs = w.objs := by
  simp only [malloc]
  split <;> simp [World.call, World.create_objs]

theorem SDL_memset_objs (p : Ptr) (c n : Nat) (w : World) :
    (SDL_memset p c n w).objs = w.objs := by
  simp only [SDL_memset]
  split <;> simp [World.call]

theorem free_objs (p : Ptr) (w : World) : (free p w).objs = w.objs := by
  unfold free World.release
  cases p <;> simp [World.call]

theorem SDL_CreateSurfaceFrom_objs (a b : Int) (p : Ptr) (c : Int) (w : World) :
    (SDL_CreateSurfaceFrom a b p c w).2.objs = w.objs := by
  simp [SDL_CreateSurfaceFrom, World.call, World.create_objs]

theorem plutovg_surface_create_for_data_objs (p : Ptr) (a b c : Int) (w : World) :
    (plutovg_surface_create_for_data p a b c w).2.objs = w.objs := by
  simp [plutovg_surface_create_for_data, World.call, World.create_objs]

theorem plutovg_canvas_create_objs (p : Ptr) (w : World) :
    (plutovg_canvas_create p w).2.objs = w.objs := by
  simp [plutovg_canvas_create, World.call, World.create_objs]

theorem SDL_SetRenderDrawBlendMode_objs (p : Ptr) (w : World) :
    (SDL_SetRenderDrawBlendMode p w).2.objs = w.objs := by
  simp [SDL_SetRenderDrawBlendMode, World.call, World.draw]

theorem World.read_objs (w : World) (f : Field) : (w.read f).objs = w.objs := rfl

theorem canvas_initializer_frame (s : JSCanvas) (w : World) :
    (canvas_initializer s w).Holds
      (fun r w1 => r.2.width = s.width ∧ r.2.height = s.height ∧ w1.objs = w.objs) := by
  simp only [canvas_initializer]
  repeat' split
  all_goals
    simp only [Run.Holds, World.read_objs, SDL_CreateWindow_objs, SDL_CreateRenderer_objs,
      malloc_objs, SDL_memset_objs, free_objs, SDL_CreateSurfaceFrom_objs,
      plutovg_surface_create_for_data_objs, plutovg_canvas_create_objs,
      SDL_SetRenderDrawBlendMode_objs, and_self]

theorem Run.Holds.imp {α : Type} {P Q : α → World → Prop} {r : Run α}
    (hpq : ∀ a w, P a w → Q a w) (h : r.Holds P) : r.Holds Q := by
  cases r with
  | done a w => exact hpq a w h
  | crash w => trivial

theorem js_canvas_ctor_fail_value (obj : JSValue) (w : World) :
    (js_canvas_ctor_fail obj w).Holds (fun v _ => v = .exception) := by
  unfold js_canvas_ctor_fail
  split <;> simp [Run.Holds]

theorem JS_NewObject_cases (o : JSObject) (w : World) :
    (JS_NewObject o w).1 = .exception
    ∨ ((JS_NewObject o w).1 = .object w.objs.length
        ∧ (JS_NewObject o w).2.objs = w.objs ++ [some o]) := by
  unfold JS_NewObject
  cases h : nextOutcome w.oracle <;> simp [h, World.draw]

/-- What a returning constructor gives: the exception value, or a new Canvas object whose
payload holds the two converted arguments as width and height. -/
theorem js_canvas_ctor_result (argc : Int) (argv : Nat → JSValueConst) (w : World) :
    (js_canvas_ctor argc argv w).Holds (fun v w1 => v = .exception ∨
      ∃ id s, v = .object id ∧ w1.objs[id]? = some (some (.canvas (some s)))
        ∧ (argv 0).toInt32 = some s.width ∧ (argv 1).toInt32 = some s.height) := by
  simp only [js_canvas_ctor, JS_ToInt32]
  repeat' split
  all_goals first
    | exact (js_canvas_ctor_fail_value _ _).imp (fun _ _ h => Or.inl h)
    | exact Or.inl rfl
    | trivial
    | skip
  rename_i h1 x1 width hwidth x2 height hheight h2 h3 x3 r w1 heq h4
  have hf := heq ▸ canvas_initializer_frame _ _
  obtain ⟨hw, hh, hobjs⟩ := hf
  rcases JS_NewObject_cases (.canvas none)
    ((w.draw.2.coerce (.JS_ToInt32 0)).coerce (.JS_ToInt32 1)).draw.2 with hn | ⟨hn1, hn2⟩
  · exact absurd hn h3
  · refine Or.inr ⟨_, r.2, hn1, ?_, ?_, ?_⟩
    · rw [hn1]
      simp only [JS_SetOpaque]
      rw [hobjs, hn2]
      simp [World.draw, World.coerce]
    · rw [hwidth, hw]
    · rw [hheight, hh]

theorem core_eq_canvas {o : JSObject} {s : JSCanvas}
    (h : o.core = (JSObject.canvas (some s)).core) :
    ∃ s1, o = .canvas (some s1) ∧ s1.width = s.width ∧ s1.height = s.height := by
  cases o with
  | canvas c =>
    cases c with
    | none => simp [JSObject.core] at h
    | some s1 =>
      simp only [JSObject.core, JSObject.canvas.injEq, Option.some.injEq, JSCanvas.mk.injEq] at h
      exact ⟨s1, rfl, h.1, h.2.1⟩
  | event x => simp [JSObject.core] at h
  | other => simp [JSObject.core] at h

/-- C10: when `js_canvas_ctor` has returned a canvas for the integer arguments (width, height),
then after any finite sequence of method calls on it, with any arguments and any native
outcomes (each call returns), the getter with selector 0 returns width and the getter with
selector 1 returns height. -/
theorem width_height_immutable (argc : Int) (argv : Nat → JSValueConst) (w0 w1 : World)
    (width height : Int) (id : Nat)
    (hw : (argv 0).toInt32 = some width) (hh : (argv 1).toInt32 = some height)
    (hctor : js_canvas_ctor argc argv w0 = .done (.object id) w1) (calls : List Call) :
    ∃ w2, runCalls (.object id) calls w1 = .done () w2
      ∧ (js_canvas_get_wh (.object id) 0 w2).value? = some (.number width)
      ∧ (js_canvas_get_wh (.object id) 1 w2).value? = some (.number height) := by
  have hres := hctor ▸ js_canvas_ctor_result argc argv w0
  rcases hres with hex | ⟨id1, s, hid, hobj, h0, h1⟩
  · cases hex
  · cases hid
    obtain ⟨w2, hrun, hpres⟩ := runCalls_frame (.object id) calls w1
    obtain ⟨o1, ho1, hcore⟩ := hpres id _ hobj
    obtain ⟨s1, rfl, hsw, hsh⟩ := core_eq_canvas hcore
    have hp : JS_GetOpaque2_canvas w2 (.object id) = some s1 := by
      simp [JS_GetOpaque2_canvas, JS_GetOpaque_canvas, World.obj, ho1]
    have e0 : s1.width = width := by
      rw [hsw]; rw [hw] at h0; exact (Option.some.inj h0).symm
    have e1 : s1.height = height := by
      rw [hsh]; rw [hh] at h1; exact (Option.some.inj h1).symm
    refine ⟨w2, hrun, ?_, ?_⟩
    · simp [js_canvas_get_wh, hp, Run.value?, JS_NewInt32, e0]
    · simp [js_canvas_get_wh, hp, Run.value?, JS_NewInt32, e1]

/-- The witness of C10: `new Canvas(2, 3)` at process start, then the sample script. -/
theorem width_height_immutable_witness :
    ∃ w2, runCalls (.object 0) sampleCalls liveCanvasWorld = .done () w2
      ∧ (js_canvas_get_wh (.object 0) 0 w2).value? = some (.number 2)
      ∧ (js_canvas_get_wh (.object 0) 1 w2).value? = some (.number 3) :=
  width_height_immutable 2 (intArgs 2 3) (World.start [] []) liveCanvasWorld 2 3 0
    rfl rfl rfl sampleCalls

/-! ## C11: the finalizer on an object without payload -/

/-- C11 (defect of the code): on a Canvas-class object whose payload was never attached,
`js_canvas_finalizer` obtains `NULL` from `JS_GetOpaque` and passes it to `canvas_finalizer`,
whose first statement reads `s->renderer`: the run dies there instead of returning, in any
world `w`, while `js_event_finalizer` on an Event object without payload returns.  This is the
path taken by `js_canvas_ctor` when `canvas_initializer` fails: with width 2, height 3 and
`SDL_SetRenderDrawBlendMode` failing, the constructor does not return and the six handles it
created are still live. -/
theorem js_canvas_finalizer_null_payload_faults (w : World) :
    js_canvas_finalizer (.object w.objs.length) { w with objs := w.objs ++ [some (.canvas none)] }
        = .crash { w with objs := w.objs ++ [some (.canvas none)] }
    ∧ js_event_finalizer (.object w.objs.length)
          { w with objs := w.objs ++ [some (.event none)] }
        = .done () { w with objs := w.objs ++ [some (.event none)] }
    ∧ (js_canvas_ctor 2 (intArgs 2 3)
          (World.start [true, true, true, true, true, true, true, true, true, false] [])).value?
        = none
    ∧ (js_canvas_ctor 2 (intArgs 2 3)
          (World.start [true, true, true, true, true, true, true, true, true, false] [])).world.live
        = [⟨.window, 0⟩, ⟨.renderer, 1⟩, ⟨.pixels, 2⟩, ⟨.surface, 3⟩, ⟨.plutovg_surface, 4⟩,
           ⟨.plutovg_canvas, 5⟩] := by
  refine ⟨?_, rfl, rfl, rfl⟩
  simp [js_canvas_finalizer, JS_GetOpaque_canvas, World.obj, canvas_finalizer]

end SdlQuickjs
